import Mathlib

/-!
Verification of the Suggestion Arbitration & Classification Engine of the
multi-tasking-helper repository: a shallow embedding, in Lean 4, of the
content classifier and rule-based suggestion engine (`rule.py`), the LLM
suggestion engine and its reply-score parser (`llm.py`), and the controller
entry point (`controller.py`), together with theorems settling the frozen
claims about that code.

Numeric scores and confidences are embedded as rationals; Python strings are
embedded as Lean `String`/`List Char`, with Python's string operations
(`strip`, `lower`, `split`, `in`, `startswith`, `endswith`, `replace`)
re-implemented faithfully below for the ASCII inputs this program handles.
External effects (the LLM backend) are passed in as explicit parameters; a
backend call that raises is an `Except.error`, a call that returns is
`Except.ok` of its optional reply.
-/

namespace MTH

/-- Python whitespace characters for `str.strip()` / `str.split()` / `\s`
(ASCII range, which is all this program's heuristics target). -/
def isPySpace (c : Char) : Bool :=
  c = ' ' || c = '\t' || c = '\n' || c = '\r' || c = '\x0b' || c = '\x0c'

/-- Embedding of `str.strip()` on a character list. -/
def pyStripList (l : List Char) : List Char :=
  ((l.dropWhile isPySpace).reverse.dropWhile isPySpace).reverse

/-- Python `str.strip()`. -/
def pyStrip (s : String) : String :=
  ⟨pyStripList s.toList⟩

/-- Python `str.lower()` (ASCII). -/
def lowerStr (s : String) : String :=
  ⟨s.toList.map Char.toLower⟩

/-- Boolean substring test on character lists (Python `needle in hay`). -/
def infixOfB (needle : List Char) : List Char → Bool
  | [] => needle.isEmpty
  | c :: t => needle.isPrefixOf (c :: t) || infixOfB needle t

/-- Python `sub in hay` for strings. -/
def containsStr (hay sub : String) : Bool :=
  infixOfB sub.toList hay.toList

/-- Python `s.split(sep)` for a single-character separator. -/
def splitOnChar (sep : Char) : List Char → List (List Char)
  | [] => [[]]
  | c :: rest =>
    match splitOnChar sep rest with
    | [] => [[]]
    | t :: ts => if c = sep then [] :: t :: ts else (c :: t) :: ts

/-- Helper for `pySplitWs`, with fuel bounded by the list length. -/
def pySplitWsAux : Nat → List Char → List (List Char)
  | 0, _ => []
  | _ + 1, [] => []
  | n + 1, c :: rest =>
    if isPySpace c then pySplitWsAux n rest
    else ((c :: rest).takeWhile (fun d => !isPySpace d)) ::
      pySplitWsAux n ((c :: rest).dropWhile (fun d => !isPySpace d))

/-- Python `str.split()` (split on whitespace runs, dropping empty tokens). -/
def pySplitWs (l : List Char) : List (List Char) :=
  pySplitWsAux l.length l

/-- Helper for `removeAll`, with fuel bounded by the list length. -/
def removeAllAux (pat : List Char) : Nat → List Char → List Char
  | 0, l => l
  | _ + 1, [] => []
  | n + 1, c :: rest =>
    if pat.isPrefixOf (c :: rest) then removeAllAux pat n ((c :: rest).drop pat.length)
    else c :: removeAllAux pat n rest

/-- Python `s.replace(pat, '')`: delete every non-overlapping occurrence of
`pat`, scanning left to right. -/
def removeAll (pat l : List Char) : List Char :=
  removeAllAux pat l.length l

/-- Embedding of `WindowInfo` from `windows.py`: a switchable candidate target. -/
structure WindowInfo where
  hwnd : Nat
  title : String
  process_name : String
  pid : Nat
  is_visible : Bool
  is_minimized : Bool
deriving DecidableEq

/-- A suggestion tuple `(reason, window, confidence_label)` as produced by
both engines. -/
abbrev Sugg := String × WindowInfo × String

/-! ## ContentClassifier (`rule.py`, `classify_content`)

The classifier is an ordered cascade; each detector below embeds one branch
of `ContentClassifier.classify_content`, returning `some (category,
confidence)` when that branch fires and `none` when it falls through. -/

/-- Embedding of `url_indicators` from `classify_content`. -/
def url_indicators : List String := ["http://", "https://", "www.", "ftp://"]

/-- URL detection branch of `classify_content`. -/
def urlDetect (content : String) : Option (String × ℚ) :=
  let content_lower := (pyStrip (lowerStr content)).toList
  if url_indicators.any (fun i => i.toList.isPrefixOf content_lower) then
    some ("WEB",
      if "http://".toList.isPrefixOf content_lower || "https://".toList.isPrefixOf content_lower
      then (0.95 : ℚ) else 0.85)
  else none

/-- Embedding of `domain_tlds` from `classify_content`. -/
def domain_tlds : List String := [".com", ".org", ".net", ".edu", ".gov", ".io", ".co", ".ai", ".dev"]

/-- Bare-domain detection branch of `classify_content`. -/
def domainDetect (content : String) : Option (String × ℚ) :=
  let content_lower := (pyStrip (lowerStr content)).toList
  if containsStr content "." && !containsStr (pyStrip content) " " &&
      domain_tlds.any (fun t => t.toList.isSuffixOf content_lower) &&
      decide (2 ≤ (splitOnChar '.' content.toList).length) then
    some ("WEB", (0.85 : ℚ))
  else none

/-- Email-address detection branch of `classify_content`; falls through when
the inner shape test fails, exactly as the nested `if` in the source does. -/
def emailAddrDetect (content : String) : Option (String × ℚ) :=
  if containsStr content "@" && containsStr content "." then
    let parts := splitOnChar '@' content.toList
    if parts.length = 2 then
      let p1 := parts.getLastD []
      if p1.contains '.' && decide (2 ≤ (splitOnChar '.' p1).length) then
        let domain_parts := splitOnChar '.' p1
        some ("EMAIL", if 2 ≤ (domain_parts.getLastD []).length then (0.9 : ℚ) else 0.7)
      else none
    else none
  else none

/-- Embedding of `email_patterns` from `classify_content`. -/
def email_patterns : List String :=
  ["dear ", "hello ", "hi ", "greetings",
   "sincerely", "best regards", "kind regards", "yours truly",
   "subject:", "to:", "from:", "cc:", "bcc:",
   "[recipient", "dear sir", "dear madam"]

/-- Email-content detection branch of `classify_content`. -/
def emailPatternDetect (content : String) : Option (String × ℚ) :=
  let content_lower := (pyStrip (lowerStr content)).toList
  let content_words := content_lower.map (fun c => if c = '\n' then ' ' else c)
  let k := email_patterns.countP (fun p => infixOfB p.toList content_words)
  if 2 ≤ k ∨ (1 ≤ k ∧ 2 < (splitOnChar '\n' content.toList).length) then
    some ("EMAIL", min 0.9 (0.6 + (k : ℚ) * 0.1))
  else none

/-- Embedding of `file_extensions` from `ContentClassifier.__init__`. -/
def file_extensions : List String :=
  [".txt", ".py", ".js", ".html", ".css", ".json", ".xml", ".md",
   ".csv", ".xlsx", ".pdf", ".doc", ".ppt", ".zip", ".rar"]

/-- File-path detection branch of `classify_content`. Note the source tests
`'\\\\' in content` — a doubled backslash — or `'/' in content`. -/
def fileDetect (content : String) : Option (String × ℚ) :=
  let content_lower := (pyStrip (lowerStr content)).toList
  if (containsStr content "\\\\" || containsStr content "/") &&
      decide ((pySplitWs content.toList).length = 1) then
    some ("FILE",
      if file_extensions.any (fun e => e.toList.isSuffixOf content_lower)
      then (0.9 : ℚ) else 0.7)
  else none

/-- Password detection branch of `classify_content`. -/
def passwordDetect (content : String) : Option (String × ℚ) :=
  let cl := content.toList
  if decide (cl.length < 50) && !cl.contains ' ' &&
      cl.any Char.isDigit && cl.any Char.isAlpha then
    let has_special := cl.any (fun c => "!@#$%^&*()_+-=".toList.contains c)
    let mixed_case := cl.any Char.isUpper && cl.any Char.isLower
    some ("PASSWORD", if has_special && mixed_case then (0.8 : ℚ) else 0.6)
  else none

/-- High-weight code patterns (`code_patterns['high']`); the SQL patterns are
upper case in the source even though they are matched against a lower-cased
string. -/
def code_patterns_high : List String :=
  ["def ", "function ", "class ", "import ", "from ", "#include",
   "public class", "SELECT ", "FROM ", "CREATE TABLE", "INSERT INTO"]

/-- Medium-weight code patterns (`code_patterns['medium']`). -/
def code_patterns_medium : List String :=
  ["private ", "public ", "var ", "let ", "const ", "=>", "function(",
   "if (", "for (", "while (", "catch (", "try \x7b"]

/-- Low-weight code patterns (`code_patterns['low']`). -/
def code_patterns_low : List String :=
  ["\x7b", "\x7d", "==", "!=", "&&", "||", "++", "--"]

/-- The accumulated weighted code score from `classify_content`. -/
def codeScore (content : String) : ℚ :=
  let cw := (pyStrip (lowerStr content)).toList
  (code_patterns_high.countP (fun p => infixOfB p.toList cw) : ℚ) * 0.4 +
    (code_patterns_medium.countP (fun p => infixOfB p.toList cw) : ℚ) * 0.25 +
    (code_patterns_low.countP (fun p => infixOfB p.toList cw) : ℚ) * 0.1

/-- Code detection branch of `classify_content`. -/
def codeDetect (content : String) : Option (String × ℚ) :=
  if (0.3 : ℚ) ≤ codeScore content then
    some ("CODE", min 0.95 (0.5 + codeScore content))
  else none

/-- Tabular-data detection branch of `classify_content`. -/
def dataTabularDetect (content : String) : Option (String × ℚ) :=
  let lines := splitOnChar '\n' content.toList
  if 3 < lines.length then
    let sep_count :=
      ((lines.take 5).map (fun line => ['\t', ',', '|', ';'].countP (fun sep => line.contains sep))).sum
    if 3 ≤ sep_count then
      some ("DATA",
        if content.toList.contains '\t' || content.toList.contains ',' then (0.8 : ℚ) else 0.6)
    else none
  else none

/-- Numeric-data detection branch of `classify_content`. -/
def dataNumericDetect (content : String) : Option (String × ℚ) :=
  let cl := content.toList
  if (cl.length : ℚ) * 0.3 < (cl.countP Char.isDigit : ℚ) ∧ 10 < cl.length then
    some ("DATA", (0.7 : ℚ))
  else none

/-- Embedding of `ContentClassifier.classify_content`: the ordered detector cascade with
the TEXT default. -/
def classify_content (content : String) : String × ℚ :=
  match urlDetect content with
  | some r => r
  | none =>
  match domainDetect content with
  | some r => r
  | none =>
  match emailAddrDetect content with
  | some r => r
  | none =>
  match emailPatternDetect content with
  | some r => r
  | none =>
  match fileDetect content with
  | some r => r
  | none =>
  match passwordDetect content with
  | some r => r
  | none =>
  match codeDetect content with
  | some r => r
  | none =>
  match dataTabularDetect content with
  | some r => r
  | none =>
  match dataNumericDetect content with
  | some r => r
  | none =>
  ("TEXT", if 20 < content.length then (0.9 : ℚ) else 0.6)

/-! ## Stable descending sort

Python's `list.sort(key=lambda x: x[1], reverse=True)` is a stable sort by
score, descending. We embed it as insertion sort: inserting from the right,
an element is placed before the first element whose score is `≤` its own, so
earlier elements stay before later elements of equal score. -/

/-- Insert a scored pair into a descending-sorted list, before the first pair
whose score is not larger (stability for the earlier element). -/
def insertScored (x : WindowInfo × ℚ) : List (WindowInfo × ℚ) → List (WindowInfo × ℚ)
  | [] => [x]
  | q :: qs => if x.2 < q.2 then q :: insertScored x qs else x :: q :: qs

/-- Stable sort by score, descending: the embedding of
`scored.sort(key=lambda x: x[1], reverse=True)`. -/
def sortScored (l : List (WindowInfo × ℚ)) : List (WindowInfo × ℚ) :=
  l.foldr insertScored []

/-! ## RuleBasedSuggestionEngine (`rule.py`) -/

/-- One category's affinity table in
`RuleBasedSuggestionEngine.content_mappings`. -/
structure Mapping where
  high_priority : List String
  medium_priority : List String
  keywords : List String
deriving DecidableEq

/-- Embedding of `RuleBasedSuggestionEngine.content_mappings`. Note the key for file
content is the literal string "FILE_PATH". -/
def content_mappings (t : String) : Option Mapping :=
  if t = "CODE" then
    some ⟨["code", "pycharm", "idea", "sublime", "atom", "vim"],
          ["notepad++", "notepad", "wordpad"],
          ["editor", "ide", "development"]⟩
  else if t = "WEB" then
    some ⟨["chrome", "firefox", "edge", "safari", "opera", "brave"],
          ["iexplore"],
          ["browser", "web"]⟩
  else if t = "EMAIL" then
    some ⟨["outlook", "thunderbird", "mailspring"],
          ["chrome", "firefox", "edge"],
          ["mail", "email"]⟩
  else if t = "FILE_PATH" then
    some ⟨["explorer", "nautilus", "finder"],
          ["cmd", "powershell", "terminal"],
          ["file", "folder", "directory"]⟩
  else if t = "PASSWORD" then
    some ⟨["chrome", "firefox", "edge", "1password", "bitwarden"],
          ["notepad", "keepass"],
          ["password", "login", "auth"]⟩
  else if t = "DATA" then
    some ⟨["excel", "calc", "tableau", "powerbi"],
          ["notepad", "word", "chrome"],
          ["data", "spreadsheet", "csv", "table"]⟩
  else if t = "TEXT" then
    some ⟨["notepad", "wordpad", "word", "writer"],
          ["chrome", "firefox", "edge"],
          ["text", "document", "note"]⟩
  else none

/-- Embedding of `[^/\s]+` taken greedily: the domain span of the URL regex in
`_get_content_specific_score`. -/
def domTake (l : List Char) : List Char :=
  l.takeWhile (fun c => !(c = '/' || isPySpace c))

/-- The candidate start positions, in backtracking order, of the regex
`(?:https?://)?(?:www\.)?([^/\s]+)` matched at position 0. -/
def domCandidates (l : List Char) : List (List Char) :=
  (if "https://".toList.isPrefixOf l then
    (if "www.".toList.isPrefixOf (l.drop 8) then [(l.drop 8).drop 4] else []) ++ [l.drop 8]
   else if "http://".toList.isPrefixOf l then
    (if "www.".toList.isPrefixOf (l.drop 7) then [(l.drop 7).drop 4] else []) ++ [l.drop 7]
   else []) ++
  (if "www.".toList.isPrefixOf l then [l.drop 4] else []) ++ [l]

/-- The domain extracted by `re.search(r'(?:https?://)?(?:www\.)?([^/\s]+)',
content_lower)` when `content_lower` starts with `http` or `www` (position 0
always hosts the leftmost match then). -/
def extractDomain (l : List Char) : Option (List Char) :=
  (domCandidates l).findSome? (fun c =>
    let d := domTake c
    if d.isEmpty then none else some d)

/-- Embedding of `RuleBasedSuggestionEngine._get_content_specific_score`. -/
def content_specific_score (w : WindowInfo) (content : String) : ℚ :=
  let title_lower := (lowerStr w.title).toList
  let content_lower := (lowerStr content).toList
  let urlBonus : Bool :=
    ("http".toList.isPrefixOf content_lower || "www".toList.isPrefixOf content_lower) &&
    (match extractDomain content_lower with
     | some d => infixOfB d title_lower
     | none => false)
  if urlBonus then 0.3
  else if (containsStr content "\\\\" || containsStr content "/") &&
      (["file", "folder", "explorer"].any (fun k => infixOfB k.toList title_lower)) then 0.2
  else if (["def ", "function", "class "].any (fun k => infixOfB k.toList content_lower)) &&
      (["code", "editor", "ide"].any (fun k => infixOfB k.toList title_lower)) then 0.2
  else 0

/-- Embedding of `RuleBasedSuggestionEngine._calculate_window_score`. -/
def calculate_window_score (w : WindowInfo) (m : Mapping) (content : String) : ℚ :=
  let process_lower := removeAll ".exe".toList (lowerStr w.process_name).toList
  let title_lower := (lowerStr w.title).toList
  let base : ℚ :=
    if m.high_priority.any (fun p => infixOfB p.toList process_lower) then 0.8
    else if m.medium_priority.any (fun p => infixOfB p.toList process_lower) then 0.5
    else 0
  let kw := m.keywords.countP (fun k => infixOfB k.toList title_lower)
  min 1 (base + (kw : ℚ) * 0.2 + content_specific_score w content)

/-- The scored-window list of `_get_suggestions_for_type`, in encounter
order: windows scoring 0 are dropped. -/
def scoredWindows (content_type content : String) (windows : List WindowInfo) :
    List (WindowInfo × ℚ) :=
  match content_mappings content_type with
  | none => []
  | some m =>
    windows.filterMap (fun w =>
      let s := calculate_window_score w m content
      if 0 < s then some (w, s) else none)

/-- The CandidateRanker: the scored windows of `_get_suggestions_for_type`
after `scored_windows.sort(key=lambda x: x[1], reverse=True)`. -/
def rankWindows (content_type content : String) (windows : List WindowInfo) :
    List (WindowInfo × ℚ) :=
  sortScored (scoredWindows content_type content windows)

/-- The priority tier label of `_get_suggestions_for_type`. -/
def priorityLabel (s : ℚ) : String :=
  if 0.8 ≤ s then "High" else if 0.5 ≤ s then "Medium" else "Low"

/-- Number of binary digits of a natural number (0 for 0), via fuel-bounded
halving. -/
def bitlenAux : Nat → Nat → Nat
  | 0, _ => 0
  | f + 1, n => if n = 0 then 0 else bitlenAux f (n / 2) + 1

/-- Bit length: `bitlen n = ⌊log2 n⌋ + 1` for `n ≥ 1`. -/
def bitlen (n : Nat) : Nat := bitlenAux n n

/-- The rational value `2 ^ e` for an integer exponent. -/
def pow2 (e : Int) : ℚ :=
  if 0 ≤ e then ((2 ^ e.toNat : ℕ) : ℚ) else 1 / ((2 ^ (-e).toNat : ℕ) : ℚ)

/-- Round a rational to the nearest integer, ties to even — the rounding
IEEE-754 arithmetic and CPython's float formatting use. -/
def roundHalfEvenQ (x : ℚ) : Int :=
  let f : Int := x.num.fdiv (x.den : Int)
  let r : ℚ := x - (f : ℚ)
  if r < 1 / 2 then f
  else if (1 / 2 : ℚ) < r then f + 1
  else if f % 2 = 0 then f else f + 1

/-- The exact rational value of the IEEE-754 binary64 (double) nearest to a
non-negative rational, ties to even, subnormals included: the value Python's
`float()` produces when parsing its decimal literal, and that each correctly
rounded float operation returns. (Scores in this program are never negative,
and far below the overflow range.) -/
def toDouble (q : ℚ) : ℚ :=
  if q ≤ 0 then 0
  else
    let e0 : Int := (bitlen q.num.toNat : Int) - (bitlen q.den : Int)
    let e : Int := if q < pow2 e0 then e0 - 1 else e0
    let k : Int := max (e - 52) (-1074)
    ((roundHalfEvenQ (q * pow2 (-k)) : ℚ)) * pow2 k

/-- Python's `f"{x:.2f}"` on a non-negative float whose exact binary value is
the rational `q`: CPython formats the exact value of the double, correctly
rounded to two decimals with ties to even. (Rule-path confidences reach this
as exact two-decimal rationals; their float counterparts differ by at most a
few ulps, far from any rounding boundary, so the rendering agrees.) -/
def fmt2 (q : ℚ) : String :=
  let n := (roundHalfEvenQ (100 * q)).toNat
  toString (n / 100) ++ "." ++ (if n % 100 < 10 then "0" else "") ++ toString (n % 100)

/-- Embedding of `RuleBasedSuggestionEngine._get_suggestions_for_type`. -/
def suggestionsForType (content_type : String) (confidence : ℚ) (content : String)
    (windows : List WindowInfo) : List Sugg :=
  ((rankWindows content_type content windows).take 3).map (fun p =>
    (content_type ++ " -> " ++ p.1.process_name, p.1,
     priorityLabel p.2 ++ " (" ++ fmt2 confidence ++ ")"))

/-- Embedding of `RuleBasedSuggestionEngine._get_recent_windows`: visible windows not
already suggested, in candidate-list order. -/
def recentWindows (windows : List WindowInfo) (exclude : List Sugg) : List Sugg :=
  let excluded := exclude.map (fun s => s.2.1.hwnd)
  (windows.filter (fun w => !decide (w.hwnd ∈ excluded) && !w.is_minimized)).map
    (fun w => ("Recent -> " ++ w.process_name, w, "Recent"))

/-- The primary suggestion list of `get_suggestions`: the classified
category's typed suggestions. -/
def rulePrimary (content : String) (windows : List WindowInfo) : List Sugg :=
  suggestionsForType (classify_content content).1 (classify_content content).2 content windows

/-- The suggestion list of `get_suggestions` after the recent-window
backfill (`if len(suggestions) < 3: suggestions.extend(...)`). -/
def ruleSugg2 (content : String) (windows : List WindowInfo) : List Sugg :=
  if (rulePrimary content windows).length < 3 then
    rulePrimary content windows ++
      (recentWindows windows (rulePrimary content windows)).take
        (3 - (rulePrimary content windows).length)
  else rulePrimary content windows

/-- Embedding of `RuleBasedSuggestionEngine.get_suggestions` (`RuleSuggester.suggest`).
`none` is the Python `None` fallback sentinel; the unused `current_window`
parameter is kept from the source signature. -/
def ruleGetSuggestions (content : String) (current_window : Option WindowInfo)
    (windows : List WindowInfo) : Option (List Sugg) :=
  if windows = [] then none
  else if ruleSugg2 content windows = [] then none
  else some ((ruleSugg2 content windows).take 3)

/-- The score the rule engine assigns a window for the classified category of
`content` (0 when the category has no affinity table). -/
def ruleWindowScore (content : String) (w : WindowInfo) : ℚ :=
  match content_mappings (classify_content content).1 with
  | none => 0
  | some m => calculate_window_score w m content

/-! ## LLMSuggestionEngine (`llm.py`)

The external backend is modelled per call as `Except Unit (Option String)`:
`Except.error ()` is a call that raises, `Except.ok none` a call returning
`None`, `Except.ok (some s)` a call returning the reply `s`. -/

/-- Embedding of `LLMSuggestionEngine._query_llm`: returns `None` when uninitialized, on a
raised exception (caught there), on a falsy reply; otherwise the stripped
reply. -/
def queryLLM (is_initialized : Bool) (backend : Except Unit (Option String)) : Option String :=
  if !is_initialized then none
  else
    match backend with
    | Except.error _ => none
    | Except.ok none => none
    | Except.ok (some s) => if s = "" then none else some (pyStrip s)

/-- Index of the first occurrence of `pat` in `l`, if any. -/
def findIdxOfSub (pat : List Char) : List Char → Option Nat
  | [] => if pat.isEmpty then some 0 else none
  | c :: rest =>
    if pat.isPrefixOf (c :: rest) then some 0
    else (findIdxOfSub pat rest).map (· + 1)

/-- Embedding of `re.sub(r'</think>.*?<think>', '', s, flags=re.DOTALL)`: fuel-bounded. -/
def thinkSub1Aux : Nat → List Char → List Char
  | 0, l => l
  | _ + 1, [] => []
  | n + 1, c :: rest =>
    if "</think>".toList.isPrefixOf (c :: rest) then
      match findIdxOfSub "<think>".toList ((c :: rest).drop 8) with
      | some k => thinkSub1Aux n (((c :: rest).drop 8).drop (k + 7))
      | none => c :: thinkSub1Aux n rest
    else c :: thinkSub1Aux n rest

/-- First reasoning-span removal pass of `_score_window`. -/
def thinkSub1 (l : List Char) : List Char := thinkSub1Aux l.length l

/-- Embedding of `re.sub(r'</?think>.*?</think>', '', s, flags=re.DOTALL)`: fuel-bounded. -/
def thinkSub2Aux : Nat → List Char → List Char
  | 0, l => l
  | _ + 1, [] => []
  | n + 1, c :: rest =>
    let l := c :: rest
    let alen : Option Nat :=
      if "</think>".toList.isPrefixOf l then some 8
      else if "<think>".toList.isPrefixOf l then some 7
      else none
    match alen with
    | some a =>
      match findIdxOfSub "</think>".toList (l.drop a) with
      | some k => thinkSub2Aux n ((l.drop a).drop (k + 8))
      | none => c :: thinkSub2Aux n rest
    | none => c :: thinkSub2Aux n rest

/-- Second reasoning-span removal pass of `_score_window`. -/
def thinkSub2 (l : List Char) : List Char := thinkSub2Aux l.length l

/-- Embedding of `re.sub(r'</?think>', '', s)`: drop any leftover think tags. -/
def thinkSub3Aux : Nat → List Char → List Char
  | 0, l => l
  | _ + 1, [] => []
  | n + 1, c :: rest =>
    let l := c :: rest
    if "</think>".toList.isPrefixOf l then thinkSub3Aux n (l.drop 8)
    else if "<think>".toList.isPrefixOf l then thinkSub3Aux n (l.drop 7)
    else c :: thinkSub3Aux n rest

/-- Third reasoning-tag removal pass of `_score_window`. -/
def thinkSub3 (l : List Char) : List Char := thinkSub3Aux l.length l

/-- The slash-hyphen regex substitution of `_score_window` (the pattern is a
character class of slash and hyphen, repeated, replaced by a space): each
maximal run of `/` or `-` becomes one space. -/
def collapseSDAux : Nat → List Char → List Char
  | 0, l => l
  | _ + 1, [] => []
  | n + 1, c :: rest =>
    if c = '/' || c = '-' then
      ' ' :: collapseSDAux n (rest.dropWhile (fun d => d = '/' || d = '-'))
    else c :: collapseSDAux n rest

/-- The formatting-character replacement pass of `_score_window`. -/
def collapseSD (l : List Char) : List Char := collapseSDAux l.length l

/-- Numeric value of an ASCII digit. -/
def digitVal (c : Char) : Nat := c.toNat - '0'.toNat

/-- Value of a decimal-fraction digit string. -/
def fracToRat (ds : List Char) : ℚ :=
  ((ds.foldl (fun acc c => acc * 10 + digitVal c) 0 : ℕ) : ℚ) / ((10 : ℚ) ^ ds.length)

/-- Embedding of `re.findall(r'([0-5](?:\.[0-9]+)?)', s)` followed by
`float(score_str)` on each match: scan left to right, non-overlapping, a
digit 0–5 with an optional greedy decimal fraction, each match carried as the
binary64 value Python's `float()` parses it to. Fuel-bounded. -/
def findScoresAux : Nat → List Char → List ℚ
  | 0, _ => []
  | _ + 1, [] => []
  | n + 1, c :: rest =>
    if '0' ≤ c ∧ c ≤ '5' then
      match rest with
      | '.' :: d :: ds =>
        if d.isDigit then
          let frac := (d :: ds).takeWhile Char.isDigit
          let after := (d :: ds).dropWhile Char.isDigit
          toDouble ((digitVal c : ℚ) + fracToRat frac) :: findScoresAux n after
        else toDouble ((digitVal c : ℚ)) :: findScoresAux n rest
      | _ => toDouble ((digitVal c : ℚ)) :: findScoresAux n rest
    else findScoresAux n rest

/-- All numeric score matches in a cleaned reply. -/
def findScores (l : List Char) : List ℚ := findScoresAux l.length l

/-- The conversational lead-ins of `_score_window`. -/
def conv_leadins : List String := ["okay", "sure", "yes", "alright"]

/-- Embedding of `re.search(r'(?:okay|sure|yes|alright)[,\s]*([0-5](?:\.[0-9])?)', s)`
followed by `float()` on the captured group: leftmost match, lead-ins tried
in alternation order, the captured decimal carried as its binary64 value.
Fuel-bounded. -/
def convSearchAux : Nat → List Char → Option ℚ
  | 0, _ => none
  | _ + 1, [] => none
  | n + 1, c :: rest =>
    match conv_leadins.findSome? (fun w =>
      if w.toList.isPrefixOf (c :: rest) then
        let after := ((c :: rest).drop w.length).dropWhile (fun d => d = ',' || isPySpace d)
        match after with
        | d :: tail =>
          if '0' ≤ d ∧ d ≤ '5' then
            match tail with
            | '.' :: f :: _ =>
              if f.isDigit then some (toDouble ((digitVal d : ℚ) + (digitVal f : ℚ) / 10))
              else some (toDouble ((digitVal d : ℚ)))
            | _ => some (toDouble ((digitVal d : ℚ)))
          else none
        | [] => none
      else none) with
    | some q => some q
    | none => convSearchAux n rest

/-- Conversational score search on a cleaned lower-cased reply. -/
def convSearch (l : List Char) : Option ℚ := convSearchAux l.length l

/-- The `rating_words` table of `_score_window`, in iteration order. -/
def rating_words : List (String × Nat) :=
  [("perfect", 5), ("excellent", 5), ("great", 4), ("good", 3), ("decent", 3),
   ("fair", 2), ("poor", 2), ("bad", 1), ("terrible", 1), ("awful", 0), ("none", 0)]

/-- The ScoreParser: the reply-parsing pipeline of
`LLMSuggestionEngine._score_window` applied to the `_query_llm` result,
returning the normalized score or `none` for "unparseable". Numeric values
follow Python float semantics exactly: each matched decimal is its binary64
value, and each division by 5 is correctly rounded (`toDouble` of the exact
quotient); comparisons, `max`, and `min` are exact on doubles. -/
def scoreResponseParse (response : Option String) : Option ℚ :=
  match response with
  | none => none
  | some r =>
    if r = "" ∨ pyStrip r = "" then none
    else
      let rc := pyStripList (collapseSD (thinkSub3 (thinkSub2 (thinkSub1 (pyStripList r.toList)))))
      if rc = [] then none
      else
        let rcl := rc.map Char.toLower
        if infixOfB "yes".toList rcl then some (toDouble 0.8)
        else if infixOfB "no".toList rcl then some (toDouble 0.2)
        else if infixOfB "12345".toList rc then some 1
        else
          let valid := (findScores rc).filter (fun s => decide (0 ≤ s) && decide (s ≤ 5))
          if valid ≠ [] then
            some (min 1 (toDouble ((valid.foldl max 0) / 5)))
          else
            match convSearch rcl with
            | some s => some (min 1 (toDouble (s / 5)))
            | none =>
              match rating_words.find? (fun kv => infixOfB kv.1.toList rcl) with
              | some kv => some (toDouble ((kv.2 : ℚ) / 5))
              | none => none

/-- The `type_keywords` table of `_classify_content`, in iteration order. -/
def type_keywords : List (String × String) :=
  [("code", "CODE"), ("web", "WEB"), ("url", "WEB"), ("email", "EMAIL"),
   ("file", "FILE"), ("data", "DATA"), ("password", "PASSWORD"), ("text", "TEXT")]

/-- Embedding of `LLMSuggestionEngine._classify_content`: rule-based result when confident
(≥ 0.8); otherwise one backend query, whose keyword-matched reply wins and
whose failure — including a raised exception, caught there — falls back to
the rule-based category. -/
def llmClassifyContent (is_initialized : Bool) (content : String)
    (backend : Except Unit (Option String)) : String :=
  let rt := classify_content content
  if (0.8 : ℚ) ≤ rt.2 then rt.1
  else
    match queryLLM is_initialized backend with
    | some response =>
      if response = "" then rt.1
      else
        match type_keywords.find? (fun kv =>
            containsStr (pyStrip (lowerStr response)) kv.1) with
        | some kv => kv.2
        | none => rt.1
    | none => rt.1

/-- The per-window scored list built by `get_suggestions` step 2: the first 5
windows, each scored through `_score_window`, unparseable ones skipped. -/
def llmWindowScores (is_initialized : Bool)
    (scoreBackend : WindowInfo → Except Unit (Option String))
    (windows : List WindowInfo) : List (WindowInfo × ℚ) :=
  (windows.take 5).filterMap (fun w =>
    (scoreResponseParse (queryLLM is_initialized (scoreBackend w))).map (fun s => (w, s)))

/-- Embedding of `LLMSuggestionEngine.get_suggestions` (`ModelSuggester.suggest`). `none`
is the Python `None` fallback sentinel. -/
def llmGetSuggestions (is_initialized : Bool) (content : String)
    (classifyBackend : Except Unit (Option String))
    (scoreBackend : WindowInfo → Except Unit (Option String))
    (current_window : Option WindowInfo)
    (windows : List WindowInfo) : Option (List Sugg) :=
  if ¬ is_initialized = true ∨ windows = [] then none
  else
    let content_type := llmClassifyContent is_initialized content classifyBackend
    if content_type = "" then none
    else
      let window_scores := llmWindowScores is_initialized scoreBackend windows
      if window_scores.length < 2 then none
      else
        some (((sortScored window_scores).take 3).enum.map (fun p =>
          ("AI Rank #" ++ toString (p.1 + 1), p.2.1, "Score: " ++ fmt2 p.2.2)))

/-! ## MultitaskController (`controller.py`) -/

/-- Embedding of `MultitaskController.get_suggestions_for_content`, with the two engines
(and the window listing already fetched) passed in as oracles: empty or
whitespace-only content returns `[]` before anything is consulted; otherwise
the LLM result is used when truthy, else the rule result (with `None`
becoming `[]`). -/
def getSuggestionsForContent (content : String)
    (available_windows : List WindowInfo)
    (tryLLM : String → List WindowInfo → Option (List Sugg))
    (tryRule : String → List WindowInfo → Option (List Sugg)) : List Sugg :=
  if pyStrip content = "" then []
  else if available_windows = [] then []
  else
    match tryLLM content available_windows with
    | some l => if l = [] then (tryRule content available_windows).getD [] else l
    | none => (tryRule content available_windows).getD []

/-! ## Concrete windows used by witnesses and counterexamples -/

/-- A browser window candidate. -/
def chromeWin : WindowInfo := ⟨1, "GitHub - Google Chrome", "chrome.exe", 100, true, false⟩

/-- A text-editor window candidate. -/
def notepadWin : WindowInfo := ⟨2, "Untitled - Notepad", "notepad.exe", 101, true, false⟩

/-- A file-manager window candidate. -/
def explorerWin : WindowInfo := ⟨3, "File Explorer", "explorer.exe", 102, true, false⟩

/-- A minimized window of an unrelated process. -/
def minWin : WindowInfo := ⟨4, "xyz", "foobar.exe", 103, true, true⟩

/-- A visible window of an unrelated process. -/
def visWin : WindowInfo := ⟨5, "Notes", "foobar.exe", 104, true, false⟩

/-! ## Helper lemmas: the stable descending sort -/

theorem insertScored_perm (x : WindowInfo × ℚ) (l : List (WindowInfo × ℚ)) :
    List.Perm (insertScored x l) (x :: l) := by
  induction l with
  | nil => simp [insertScored]
  | cons q qs ih =>
    simp only [insertScored]
    split
    · exact (ih.cons q).trans (List.Perm.swap x q qs)
    · exact List.Perm.refl _

theorem sortScored_perm (l : List (WindowInfo × ℚ)) :
    List.Perm (sortScored l) l := by
  induction l with
  | nil => exact List.Perm.refl _
  | cons a t ih =>
    exact (insertScored_perm a (sortScored t)).trans (ih.cons a)

theorem pairwise_insertScored {x : WindowInfo × ℚ} {l : List (WindowInfo × ℚ)}
    (h : l.Pairwise (fun a b => b.2 ≤ a.2)) :
    (insertScored x l).Pairwise (fun a b => b.2 ≤ a.2) := by
  induction l with
  | nil => simp [insertScored]
  | cons q qs ih =>
    rw [List.pairwise_cons] at h
    obtain ⟨hq, hqs⟩ := h
    simp only [insertScored]
    split
    · rename_i hlt
      rw [List.pairwise_cons]
      refine ⟨fun b hb => ?_, ih hqs⟩
      rcases List.mem_cons.mp (((insertScored_perm x qs).mem_iff).mp hb) with hbx | hbqs
      · subst hbx; exact le_of_lt hlt
      · exact hq b hbqs
    · rename_i hge
      rw [List.pairwise_cons]
      refine ⟨fun b hb => ?_, List.pairwise_cons.mpr ⟨hq, hqs⟩⟩
      rcases List.mem_cons.mp hb with hbq | hbqs
      · subst hbq; exact le_of_not_lt hge
      · exact (hq b hbqs).trans (le_of_not_lt hge)

theorem pairwise_sortScored (l : List (WindowInfo × ℚ)) :
    (sortScored l).Pairwise (fun a b => b.2 ≤ a.2) := by
  induction l with
  | nil => simp [sortScored]
  | cons a t ih => exact pairwise_insertScored ih

theorem filter_insertScored (x : WindowInfo × ℚ) (l : List (WindowInfo × ℚ)) (s : ℚ) :
    (insertScored x l).filter (fun p => p.2 == s) =
      if x.2 = s then x :: l.filter (fun p => p.2 == s) else l.filter (fun p => p.2 == s) := by
  induction l with
  | nil =>
    by_cases h : x.2 = s <;> simp [insertScored, List.filter_cons, h]
  | cons q qs ih =>
    simp only [insertScored]
    split
    · rename_i hlt
      by_cases hx : x.2 = s
      · have hq : ¬ q.2 = s := by
          intro hqs'
          exact absurd (hx ▸ hqs' ▸ hlt) (lt_irrefl _)
        simp [List.filter_cons, hx, hq, ih]
      · by_cases hqm : q.2 = s <;> simp [List.filter_cons, hx, hqm, ih]
    · by_cases hx : x.2 = s <;> by_cases hqm : q.2 = s <;>
        simp [List.filter_cons, hx, hqm]

theorem filter_sortScored (l : List (WindowInfo × ℚ)) (s : ℚ) :
    (sortScored l).filter (fun p => p.2 == s) = l.filter (fun p => p.2 == s) := by
  induction l with
  | nil => rfl
  | cons a t ih =>
    show (insertScored a (sortScored t)).filter _ = _
    rw [filter_insertScored]
    by_cases h : a.2 = s <;> simp [h, List.filter_cons, ih]

/-! ## Helper lemmas: hwnd distinctness -/

theorem map_fst_filterMap_sublist (f : WindowInfo → Option (WindowInfo × ℚ))
    (hf : ∀ a p, f a = some p → p.1 = a) (ws : List WindowInfo) :
    List.Sublist ((ws.filterMap f).map Prod.fst) ws := by
  induction ws with
  | nil => simp
  | cons a t ih =>
    rw [List.filterMap_cons]
    cases h : f a with
    | none => exact ih.cons a
    | some p =>
      rw [List.map_cons, hf a p h]
      exact ih.cons₂ a

theorem nodup_hwnd_scoredWindows (ct content : String) (ws : List WindowInfo)
    (h : (ws.map WindowInfo.hwnd).Nodup) :
    ((scoredWindows ct content ws).map (fun p => p.1.hwnd)).Nodup := by
  unfold scoredWindows
  cases hm : content_mappings ct with
  | none => simp
  | some m =>
    have hsub : List.Sublist
        ((ws.filterMap (fun w =>
          let s := calculate_window_score w m content
          if 0 < s then some (w, s) else none)).map Prod.fst) ws := by
      refine map_fst_filterMap_sublist _ (fun a p hp => ?_) ws
      simp only at hp
      split at hp
      · exact (Option.some.inj hp) ▸ rfl
      · exact absurd hp (by simp)
    have : ((ws.filterMap (fun w =>
        let s := calculate_window_score w m content
        if 0 < s then some (w, s) else none)).map (fun p => p.1.hwnd)) =
        (((ws.filterMap (fun w =>
          let s := calculate_window_score w m content
          if 0 < s then some (w, s) else none)).map Prod.fst).map WindowInfo.hwnd) := by
      rw [List.map_map]
      rfl
    rw [this]
    exact (hsub.map WindowInfo.hwnd).nodup h

theorem nodup_hwnd_rankWindows (ct content : String) (ws : List WindowInfo)
    (h : (ws.map WindowInfo.hwnd).Nodup) :
    ((rankWindows ct content ws).map (fun p => p.1.hwnd)).Nodup := by
  have hperm := (sortScored_perm (scoredWindows ct content ws)).map (fun p => p.1.hwnd)
  exact hperm.nodup_iff.mpr (nodup_hwnd_scoredWindows ct content ws h)

/-! ## Helper lemmas: classifier detector ranges -/

theorem urlDetect_spec {c : String} {r : String × ℚ} (h : urlDetect c = some r) :
    r.1 = "WEB" ∧ 0 ≤ r.2 ∧ r.2 ≤ 1 := by
  simp only [urlDetect] at h
  split at h
  · injection h with h
    subst h
    refine ⟨rfl, ?_, ?_⟩ <;> dsimp only <;> split <;> norm_num
  · exact absurd h (by simp)

theorem domainDetect_spec {c : String} {r : String × ℚ} (h : domainDetect c = some r) :
    r.1 = "WEB" ∧ 0 ≤ r.2 ∧ r.2 ≤ 1 := by
  simp only [domainDetect] at h
  split at h
  · injection h with h
    subst h
    refine ⟨rfl, by norm_num, by norm_num⟩
  · exact absurd h (by simp)

theorem emailAddrDetect_spec {c : String} {r : String × ℚ} (h : emailAddrDetect c = some r) :
    r.1 = "EMAIL" ∧ 0 ≤ r.2 ∧ r.2 ≤ 1 := by
  simp only [emailAddrDetect] at h
  split at h
  · split at h
    · split at h
      · injection h with h
        subst h
        refine ⟨rfl, ?_, ?_⟩ <;> dsimp only <;> split <;> norm_num
      · exact absurd h (by simp)
    · exact absurd h (by simp)
  · exact absurd h (by simp)

theorem emailPatternDetect_spec {c : String} {r : String × ℚ} (h : emailPatternDetect c = some r) :
    r.1 = "EMAIL" ∧ 0 ≤ r.2 ∧ r.2 ≤ 1 := by
  simp only [emailPatternDetect] at h
  split at h
  · injection h with h
    subst h
    refine ⟨rfl, ?_, ?_⟩
    · dsimp only
      refine le_min (by norm_num) (by positivity)
    · exact (min_le_left _ _).trans (by norm_num)
  · exact absurd h (by simp)

theorem fileDetect_spec {c : String} {r : String × ℚ} (h : fileDetect c = some r) :
    r.1 = "FILE" ∧ 0 ≤ r.2 ∧ r.2 ≤ 1 := by
  simp only [fileDetect] at h
  split at h
  · injection h with h
    subst h
    refine ⟨rfl, ?_, ?_⟩ <;> dsimp only <;> split <;> norm_num
  · exact absurd h (by simp)

theorem passwordDetect_spec {c : String} {r : String × ℚ} (h : passwordDetect c = some r) :
    r.1 = "PASSWORD" ∧ 0 ≤ r.2 ∧ r.2 ≤ 1 := by
  simp only [passwordDetect] at h
  split at h
  · injection h with h
    subst h
    refine ⟨rfl, ?_, ?_⟩ <;> dsimp only <;> split <;> norm_num
  · exact absurd h (by simp)

theorem codeScore_nonneg (c : String) : 0 ≤ codeScore c := by
  unfold codeScore
  positivity

theorem codeDetect_spec {c : String} {r : String × ℚ} (h : codeDetect c = some r) :
    r.1 = "CODE" ∧ 0 ≤ r.2 ∧ r.2 ≤ 1 := by
  simp only [codeDetect] at h
  split at h
  · injection h with h
    subst h
    refine ⟨rfl, ?_, ?_⟩
    · exact le_min (by norm_num) (by linarith [codeScore_nonneg c])
    · exact (min_le_left _ _).trans (by norm_num)
  · exact absurd h (by simp)

theorem dataTabularDetect_spec {c : String} {r : String × ℚ} (h : dataTabularDetect c = some r) :
    r.1 = "DATA" ∧ 0 ≤ r.2 ∧ r.2 ≤ 1 := by
  simp only [dataTabularDetect] at h
  split at h
  · split at h
    · injection h with h
      subst h
      refine ⟨rfl, ?_, ?_⟩ <;> dsimp only <;> split <;> norm_num
    · exact absurd h (by simp)
  · exact absurd h (by simp)

theorem dataNumericDetect_spec {c : String} {r : String × ℚ} (h : dataNumericDetect c = some r) :
    r.1 = "DATA" ∧ 0 ≤ r.2 ∧ r.2 ≤ 1 := by
  simp only [dataNumericDetect] at h
  split at h
  · injection h with h
    subst h
    exact ⟨rfl, by norm_num, by norm_num⟩
  · exact absurd h (by simp)

/-- Each classification lands in the closed category set with a confidence in
the unit interval. -/
theorem classify_content_spec (c : String) :
    (classify_content c).1 ∈ (["CODE", "WEB", "EMAIL", "FILE", "PASSWORD", "DATA", "TEXT"] : List String)
      ∧ 0 ≤ (classify_content c).2 ∧ (classify_content c).2 ≤ 1 := by
  unfold classify_content
  cases h1 : urlDetect c with
  | some r =>
    obtain ⟨ha, hb, hc⟩ := urlDetect_spec h1
    exact ⟨by rw [ha]; simp, hb, hc⟩
  | none =>
  cases h2 : domainDetect c with
  | some r =>
    obtain ⟨ha, hb, hc⟩ := domainDetect_spec h2
    exact ⟨by rw [ha]; simp, hb, hc⟩
  | none =>
  cases h3 : emailAddrDetect c with
  | some r =>
    obtain ⟨ha, hb, hc⟩ := emailAddrDetect_spec h3
    exact ⟨by rw [ha]; simp, hb, hc⟩
  | none =>
  cases h4 : emailPatternDetect c with
  | some r =>
    obtain ⟨ha, hb, hc⟩ := emailPatternDetect_spec h4
    exact ⟨by rw [ha]; simp, hb, hc⟩
  | none =>
  cases h5 : fileDetect c with
  | some r =>
    obtain ⟨ha, hb, hc⟩ := fileDetect_spec h5
    exact ⟨by rw [ha]; simp, hb, hc⟩
  | none =>
  cases h6 : passwordDetect c with
  | some r =>
    obtain ⟨ha, hb, hc⟩ := passwordDetect_spec h6
    exact ⟨by rw [ha]; simp, hb, hc⟩
  | none =>
  cases h7 : codeDetect c with
  | some r =>
    obtain ⟨ha, hb, hc⟩ := codeDetect_spec h7
    exact ⟨by rw [ha]; simp, hb, hc⟩
  | none =>
  cases h8 : dataTabularDetect c with
  | some r =>
    obtain ⟨ha, hb, hc⟩ := dataTabularDetect_spec h8
    exact ⟨by rw [ha]; simp, hb, hc⟩
  | none =>
  cases h9 : dataNumericDetect c with
  | some r =>
    obtain ⟨ha, hb, hc⟩ := dataNumericDetect_spec h9
    exact ⟨by rw [ha]; simp, hb, hc⟩
  | none =>
    refine ⟨by simp, ?_, ?_⟩ <;> dsimp only <;> split <;> norm_num

/-- The classified category is never the empty string. -/
theorem classify_content_fst_ne_empty (c : String) : (classify_content c).1 ≠ "" := by
  have h := (classify_content_spec c).1
  simp only [List.mem_cons, List.not_mem_nil, or_false] at h
  rcases h with h | h | h | h | h | h | h <;> rw [h] <;> decide

/-! ## Helper lemmas: rule engine structure -/

theorem take3_ne_nil {α : Type} {l : List α} (h : l ≠ []) : l.take 3 ≠ [] := by
  cases l with
  | nil => exact absurd rfl h
  | cons a t => simp [List.take]

theorem calculate_window_score_le_one (w : WindowInfo) (m : Mapping) (content : String) :
    calculate_window_score w m content ≤ 1 :=
  min_le_left _ _

theorem mem_scoredWindows_of_score {content : String} {w : WindowInfo} {ws : List WindowInfo}
    (hw : w ∈ ws) (hs : 0 < ruleWindowScore content w) :
    ∃ p : WindowInfo × ℚ, p ∈ scoredWindows (classify_content content).1 content ws ∧ p.1 = w := by
  unfold ruleWindowScore at hs
  unfold scoredWindows
  cases hm : content_mappings (classify_content content).1 with
  | none => rw [hm] at hs; exact absurd hs (by norm_num)
  | some m =>
    rw [hm] at hs
    refine ⟨(w, calculate_window_score w m content), ?_, rfl⟩
    refine List.mem_filterMap.mpr ⟨w, hw, ?_⟩
    simp only
    rw [if_pos hs]

theorem rulePrimary_ne_nil_of_score {content : String} {w : WindowInfo} {ws : List WindowInfo}
    (hw : w ∈ ws) (hs : 0 < ruleWindowScore content w) :
    rulePrimary content ws ≠ [] := by
  obtain ⟨p, hp, -⟩ := mem_scoredWindows_of_score hw hs
  clear hs
  have hscored : scoredWindows (classify_content content).1 content ws ≠ [] :=
    List.ne_nil_of_mem hp
  have hrank : rankWindows (classify_content content).1 content ws ≠ [] := by
    intro hcon
    have hlen := (sortScored_perm (scoredWindows (classify_content content).1 content ws)).length_eq
    rw [show rankWindows (classify_content content).1 content ws =
        sortScored (scoredWindows (classify_content content).1 content ws) from rfl] at hcon
    rw [hcon] at hlen
    exact hscored (List.eq_nil_of_length_eq_zero hlen.symm)
  unfold rulePrimary suggestionsForType
  intro hcon
  rw [List.map_eq_nil_iff] at hcon
  exact take3_ne_nil hrank hcon

theorem nodup_hwnd_rulePrimary (content : String) (ws : List WindowInfo)
    (hn : (ws.map WindowInfo.hwnd).Nodup) :
    ((rulePrimary content ws).map (fun s => s.2.1.hwnd)).Nodup := by
  unfold rulePrimary suggestionsForType
  rw [List.map_map]
  have h2 := nodup_hwnd_rankWindows (classify_content content).1 content ws hn
  exact ((List.take_sublist 3 _).map (fun p : WindowInfo × ℚ => p.1.hwnd)).nodup h2

theorem nodup_hwnd_recentWindows (ws : List WindowInfo) (ex : List Sugg)
    (hn : (ws.map WindowInfo.hwnd).Nodup) :
    ((recentWindows ws ex).map (fun s => s.2.1.hwnd)).Nodup := by
  unfold recentWindows
  rw [List.map_map]
  exact ((List.filter_sublist ws).map WindowInfo.hwnd).nodup hn

theorem nodup_hwnd_ruleSugg2 (content : String) (ws : List WindowInfo)
    (hn : (ws.map WindowInfo.hwnd).Nodup) :
    ((ruleSugg2 content ws).map (fun s => s.2.1.hwnd)).Nodup := by
  unfold ruleSugg2
  split
  · rw [List.map_append, List.nodup_append]
    refine ⟨nodup_hwnd_rulePrimary content ws hn, ?_, ?_⟩
    · exact ((List.take_sublist _ _).map (fun s : Sugg => s.2.1.hwnd)).nodup
        (nodup_hwnd_recentWindows ws (rulePrimary content ws) hn)
    · rw [List.disjoint_right]
      intro a har hal
      obtain ⟨s, hs, rfl⟩ := List.mem_map.mp har
      have hs' : s ∈ recentWindows ws (rulePrimary content ws) := List.mem_of_mem_take hs
      unfold recentWindows at hs'
      obtain ⟨w, hwf, rfl⟩ := List.mem_map.mp hs'
      have hcond := (List.mem_filter.mp hwf).2
      simp only [Bool.and_eq_true, Bool.not_eq_true', decide_eq_false_iff_not] at hcond
      exact hcond.1 hal
  · exact nodup_hwnd_rulePrimary content ws hn

/-! ## Helper lemmas: LLM engine structure -/

theorem llmClassifyContent_ne_empty (ii : Bool) (content : String)
    (cb : Except Unit (Option String)) :
    llmClassifyContent ii content cb ≠ "" := by
  unfold llmClassifyContent
  dsimp only
  split
  · exact classify_content_fst_ne_empty content
  · generalize queryLLM ii cb = q
    cases q with
    | none => exact classify_content_fst_ne_empty content
    | some r =>
      dsimp only
      split
      · exact classify_content_fst_ne_empty content
      · cases hf : type_keywords.find? (fun kv => containsStr (pyStrip (lowerStr r)) kv.1) with
        | none => dsimp only; exact classify_content_fst_ne_empty content
        | some kv =>
          dsimp only
          have hmem := List.mem_of_find?_eq_some hf
          fin_cases hmem <;> decide

/-! ## Claim theorems

The Batteries rational arithmetic definitions are marked irreducible, which
blocks the `decide` tactic's evaluation of concrete scores even though the
kernel itself reduces them; re-mark them semireducible so concrete
evaluations go through. -/

set_option allowUnsafeReducibility true

attribute [local semireducible] Rat.add Rat.mul Rat.inv Rat.ofScientific Rat.sub

/-- C1 (counterexample): with the single non-empty candidate list holding one
minimized window of an unrelated process, and ordinary text content, the rule
engine returns the absent sentinel `None` — refuting that the returned list
may be empty or absent only when the candidate list is empty. -/
theorem c1_counterexample :
    ([minWin] : List WindowInfo) ≠ [] ∧ ruleGetSuggestions "hello" none [minWin] = none := by
  decide

/-- C1 (amended): the rule engine returns a non-empty suggestion list
whenever some candidate either scores positively for the classified category
or is not minimized; only an empty candidate list, or one whose candidates
all score zero and are all minimized, yields the absent sentinel. -/
theorem c1_amended_backstop (content : String) (cw : Option WindowInfo)
    (ws : List WindowInfo)
    (h : ∃ w ∈ ws, 0 < ruleWindowScore content w ∨ w.is_minimized = false) :
    ruleGetSuggestions content cw ws ≠ none
    ∧ ∀ l, ruleGetSuggestions content cw ws = some l → l ≠ [] := by
  obtain ⟨w, hw, hcase⟩ := h
  have hne : ws ≠ [] := List.ne_nil_of_mem hw
  have hs2 : ruleSugg2 content ws ≠ [] := by
    by_cases hp : rulePrimary content ws = []
    · have hmin : w.is_minimized = false := by
        rcases hcase with hs | hmin
        · exact absurd hp (rulePrimary_ne_nil_of_score hw hs)
        · exact hmin
      unfold ruleSugg2
      rw [hp]
      rw [if_pos (by simp)]
      simp only [List.length_nil, List.nil_append, Nat.sub_zero]
      have hmem : ("Recent -> " ++ w.process_name, w, "Recent") ∈ recentWindows ws [] := by
        unfold recentWindows
        refine List.mem_map.mpr ⟨w, ?_, rfl⟩
        refine List.mem_filter.mpr ⟨hw, ?_⟩
        simp [hmin]
      exact take3_ne_nil (List.ne_nil_of_mem hmem)
    · unfold ruleSugg2
      split
      · intro hcon
        exact hp (List.append_eq_nil.mp hcon).1
      · exact hp
  constructor
  · unfold ruleGetSuggestions
    rw [if_neg hne, if_neg hs2]
    simp
  · intro l hl
    unfold ruleGetSuggestions at hl
    rw [if_neg hne, if_neg hs2] at hl
    injection hl with hl
    subst hl
    exact take3_ne_nil hs2

/-- C1 (witness): a single visible candidate of an unrelated process yields a
suggestion. -/
theorem c1_amended_backstop_witness :
    ruleGetSuggestions "hello" none [visWin] ≠ none :=
  (c1_amended_backstop "hello" none [visWin] ⟨visWin, by decide, by decide⟩).1

/-- C2: with an initialized model and a non-empty candidate list, fewer than
2 parseable scores among the first 5 candidates yields the `None` fallback
sentinel; otherwise the result is the scored candidates sorted descending by
score (a stable sort: equal-score candidates keep encounter order), truncated
to the top 3, each labeled "AI Rank #1"/"#2"/"#3" with its normalized
score. -/
theorem c2_model_decision_rule (content : String) (cb : Except Unit (Option String))
    (sb : WindowInfo → Except Unit (Option String)) (cw : Option WindowInfo)
    (ws : List WindowInfo) (hws : ws ≠ []) :
    ((llmWindowScores true sb ws).length < 2 →
      llmGetSuggestions true content cb sb cw ws = none)
    ∧ (2 ≤ (llmWindowScores true sb ws).length →
      llmGetSuggestions true content cb sb cw ws
        = some (((sortScored (llmWindowScores true sb ws)).take 3).enum.map (fun p =>
            ("AI Rank #" ++ toString (p.1 + 1), p.2.1, "Score: " ++ fmt2 p.2.2)))
      ∧ (sortScored (llmWindowScores true sb ws)).Pairwise (fun a b => b.2 ≤ a.2)
      ∧ ∀ s : ℚ, (sortScored (llmWindowScores true sb ws)).filter (fun p => p.2 == s)
          = (llmWindowScores true sb ws).filter (fun p => p.2 == s)) := by
  have hct := llmClassifyContent_ne_empty true content cb
  constructor
  · intro hlt
    unfold llmGetSuggestions
    rw [if_neg (by simp [hws])]
    dsimp only
    rw [if_neg hct, if_pos hlt]
  · intro hge
    refine ⟨?_, pairwise_sortScored _, fun s => filter_sortScored _ s⟩
    unfold llmGetSuggestions
    rw [if_neg (by simp [hws])]
    dsimp only
    rw [if_neg hct, if_neg (by omega)]

/-- C2 (witness): two candidates each scored "3" give two parseable scores
0.6, so the model path returns both, ranked. -/
theorem c2_model_decision_rule_witness :
    llmGetSuggestions true "hello" (Except.ok none) (fun _ => Except.ok (some "3")) none
        [chromeWin, notepadWin]
      = some [("AI Rank #1", chromeWin, "Score: 0.60"), ("AI Rank #2", notepadWin, "Score: 0.60")] :=
  (((c2_model_decision_rule "hello" (Except.ok none) (fun _ => Except.ok (some "3")) none
      [chromeWin, notepadWin] (by decide)).2 (by decide)).1).trans (by decide)

/-- C3 (counterexample): the reply "score: 4/5" does not parse to 0.8. -/
theorem c3_counterexample : scoreResponseParse (some "score: 4/5") ≠ some 0.8 := by
  decide

/-- C3 (amended): on "score: 4/5" the parser's digit scan matches both 4 and
5 (the slash having been replaced by a space) and takes the maximum, so the
normalized value is 5/5 = 1.0, not 0.8. -/
theorem c3_amended_max_wins : scoreResponseParse (some "score: 4/5") = some 1 := by
  decide

/-- C4 (code bug): the classifier emits category "FILE", but the affinity
table is keyed "FILE_PATH", so FILE-classified content is never
affinity-scored: a file path with a file-explorer candidate yields only a
"Recent" backfill suggestion instead of a scored primary one. -/
theorem c4_file_category_never_scored :
    (classify_content "docs/report.txt").1 = "FILE"
    ∧ content_mappings "FILE" = none
    ∧ ruleGetSuggestions "docs/report.txt" none [explorerWin]
        = some [("Recent -> explorer.exe", explorerWin, "Recent")] := by
  decide

/-- C5 (counterexample): "folder\file.txt" (single backslashes) is a single
whitespace-free token containing a backslash, matched by none of the earlier
detectors, and ends in a known extension — yet it classifies as TEXT 0.6,
not FILE 0.9: a single backslash is not recognized as a path separator. -/
theorem c5_counterexample :
    containsStr "folder\\file.txt" "\\" = true
    ∧ (pySplitWs "folder\\file.txt".toList).length = 1
    ∧ urlDetect "folder\\file.txt" = none
    ∧ domainDetect "folder\\file.txt" = none
    ∧ emailAddrDetect "folder\\file.txt" = none
    ∧ emailPatternDetect "folder\\file.txt" = none
    ∧ classify_content "folder\\file.txt" = ("TEXT", 0.6) := by
  decide

/-- C5 (amended): for a single whitespace-free token containing a forward
slash or a doubled backslash (the two separators the code actually tests),
unmatched by the earlier WEB and EMAIL detectors, classification is FILE
with confidence 0.9 when it ends in a known extension and 0.7 otherwise. -/
theorem c5_amended_separator_shape (content : String)
    (h1 : urlDetect content = none) (h2 : domainDetect content = none)
    (h3 : emailAddrDetect content = none) (h4 : emailPatternDetect content = none)
    (h5 : (containsStr content "\\\\" || containsStr content "/") = true)
    (h6 : (pySplitWs content.toList).length = 1) :
    classify_content content =
      ("FILE",
        if file_extensions.any (fun e => e.toList.isSuffixOf (pyStrip (lowerStr content)).toList)
        then (0.9 : ℚ) else 0.7) := by
  have hf : fileDetect content =
      some ("FILE",
        if file_extensions.any (fun e => e.toList.isSuffixOf (pyStrip (lowerStr content)).toList)
        then (0.9 : ℚ) else 0.7) := by
    unfold fileDetect
    rw [if_pos (by simp [h5]; exact h6)]
  unfold classify_content
  rw [h1, h2, h3, h4, hf]

/-- C5 (witness): "a/b" has a slash, one token, no known extension: FILE
0.7. -/
theorem c5_amended_separator_shape_witness : classify_content "a/b" = ("FILE", 0.7) :=
  (c5_amended_separator_shape "a/b" (by decide) (by decide) (by decide) (by decide)
    (by decide) (by decide)).trans (by decide)

/-- C6 (counterexample): with a backend that raises during the classification
query and two candidates whose scores parse, the model path still returns
suggestions — it does not abort with the fallback sentinel. -/
theorem c6_counterexample :
    llmGetSuggestions true "hello" (Except.error ()) (fun _ => Except.ok (some "4")) none
      [chromeWin, notepadWin] ≠ none := by
  decide

/-- C6 (amended): an exception raised by the backend query during the
classification step is caught inside classification (the rule-based category
is used) and behaves exactly like a query that returned nothing: the model
path proceeds to score candidates rather than signalling insufficient
evidence. -/
theorem c6_amended_classification_error_caught (is_initialized : Bool) (content : String)
    (sb : WindowInfo → Except Unit (Option String))
    (cw : Option WindowInfo) (ws : List WindowInfo) :
    llmGetSuggestions is_initialized content (Except.error ()) sb cw ws
      = llmGetSuggestions is_initialized content (Except.ok none) sb cw ws := by
  have hq : queryLLM is_initialized (Except.error ())
      = queryLLM is_initialized (Except.ok none) := by
    cases is_initialized <;> rfl
  unfold llmGetSuggestions llmClassifyContent
  rw [hq]

/-- C7: whenever the rule engine returns a list for candidates with pairwise
distinct ids, that list has at most 3 suggestions and no two of them refer to
the same candidate id. -/
theorem c7_cap_and_distinct (content : String) (cw : Option WindowInfo)
    (ws : List WindowInfo) (hn : (ws.map WindowInfo.hwnd).Nodup)
    (l : List Sugg) (h : ruleGetSuggestions content cw ws = some l) :
    l.length ≤ 3 ∧ (l.map (fun s => s.2.1.hwnd)).Nodup := by
  unfold ruleGetSuggestions at h
  by_cases hws : ws = []
  · rw [if_pos hws] at h
    exact absurd h (by simp)
  · rw [if_neg hws] at h
    by_cases hs2 : ruleSugg2 content ws = []
    · rw [if_pos hs2] at h
      exact absurd h (by simp)
    · rw [if_neg hs2] at h
      injection h with h
      subst h
      constructor
      · rw [List.length_take]
        exact min_le_left _ _
      · exact ((List.take_sublist 3 _).map (fun s : Sugg => s.2.1.hwnd)).nodup
          (nodup_hwnd_ruleSugg2 content ws hn)

/-- C7 (witness): one chrome candidate for plain text yields one suggestion,
within the cap and duplicate-free. -/
theorem c7_cap_and_distinct_witness :
    ([("TEXT -> chrome.exe", chromeWin, "Medium (0.60)")] : List Sugg).length ≤ 3
    ∧ (([("TEXT -> chrome.exe", chromeWin, "Medium (0.60)")] : List Sugg).map
        (fun s => s.2.1.hwnd)).Nodup :=
  c7_cap_and_distinct "x" none [chromeWin] (by decide) _ (by decide)

/-- C8: the ranker's output holds only positive scores, every score is
clamped to at most 1, it is sorted descending by score, and it is stable:
for each score value, the candidates carrying it appear exactly as in the
encounter-order scored list. -/
theorem c8_ranker_sorted_clamped_stable (ct content : String) (ws : List WindowInfo) :
    (∀ p ∈ rankWindows ct content ws, 0 < p.2 ∧ p.2 ≤ 1)
    ∧ (rankWindows ct content ws).Pairwise (fun a b => b.2 ≤ a.2)
    ∧ ∀ s : ℚ, (rankWindows ct content ws).filter (fun p => p.2 == s)
        = (scoredWindows ct content ws).filter (fun p => p.2 == s) := by
  refine ⟨?_, pairwise_sortScored _, fun s => filter_sortScored _ s⟩
  intro p hp
  have hp' : p ∈ scoredWindows ct content ws := (sortScored_perm _).mem_iff.mp hp
  unfold scoredWindows at hp'
  cases hm : content_mappings ct with
  | none => rw [hm] at hp'; exact absurd hp' (by simp)
  | some m =>
    rw [hm] at hp'
    obtain ⟨w, -, hfw⟩ := List.mem_filterMap.mp hp'
    simp only at hfw
    split at hfw
    · rename_i hpos
      obtain rfl := Option.some.inj hfw
      exact ⟨hpos, calculate_window_score_le_one w m content⟩
    · exact absurd hfw (by simp)

/-- C8 (witness): chrome scores 0.8 for WEB content, a positive clamped
score. -/
theorem c8_ranker_sorted_clamped_stable_witness : (0 : ℚ) < 0.8 ∧ (0.8 : ℚ) ≤ 1 :=
  (c8_ranker_sorted_clamped_stable "WEB" "x" [chromeWin]).1 (chromeWin, 0.8) (by decide)

/-- C9: empty or whitespace-only content makes the controller return the
empty list at once, for every window list and any behavior of the model and
rule engines. -/
theorem c9_empty_content_short_circuits (content : String) (h : pyStrip content = "")
    (ws : List WindowInfo)
    (tryLLM tryRule : String → List WindowInfo → Option (List Sugg)) :
    getSuggestionsForContent content ws tryLLM tryRule = [] := by
  unfold getSuggestionsForContent
  rw [if_pos h]

/-- C9 (witness): whitespace content returns `[]` even with engines that
would suggest. -/
theorem c9_empty_content_short_circuits_witness :
    getSuggestionsForContent "  \n " [chromeWin]
      (fun _ _ => some [("AI Rank #1", chromeWin, "Score: 0.80")])
      (fun _ _ => some [("Recent -> chrome.exe", chromeWin, "Recent")]) = [] :=
  c9_empty_content_short_circuits "  \n " (by decide) [chromeWin] _ _

/-- C10: the classifier is a total function on strings — every input,
including the empty string, yields one of the seven categories with a
confidence in the unit interval — and the empty string classifies as
(TEXT, 0.6). Determinism is inherent: the embedding is a pure function of
the input. -/
theorem c10_classifier_total :
    (∀ c : String,
      (classify_content c).1 ∈ (["CODE", "WEB", "EMAIL", "FILE", "PASSWORD", "DATA", "TEXT"] : List String)
        ∧ 0 ≤ (classify_content c).2 ∧ (classify_content c).2 ≤ 1)
    ∧ classify_content "" = ("TEXT", 0.6) :=
  ⟨classify_content_spec, by decide⟩

end MTH
